import Mathlib

/-!
Shallow embedding of the contractor-CRM financial reconciliation core:
the warning-level rule and category aggregator (`getWarningLevel`,
`getCategoryTotals`), the ledger mutation operations (`addPayment`,
`deletePayment`, `deleteCategory`, `addExpense` and the expense form
submission that feeds it), and the schema migrator (`migrateData`).

Modelling conventions:
- monetary amounts are rationals (`ℚ`);
- fields a JS object may lack, or hold `null` in, are `Option`s;
- JS `x || d` on numbers is `jsNum` (zero and null both give the default 0),
  JS `x || null` on numbers is `numOrNull`, JS `s || null` on strings is
  `strTruthy` (empty string is falsy), JS `x ?? y` is `nullish`
  (only null/undefined fall through);
- allocations appear in two shapes, exactly as in the source: the copy
  embedded in a payment carries a `categoryId`, the copy distributed into a
  category carries a `paymentId` and a denormalized date.
-/

/-- JS `o || 0` on an optional number: null/undefined and 0 both give 0. -/
def jsNum (o : Option ℚ) : ℚ := o.getD 0

/-- JS `x || null` on a number that may be absent: 0 and absent give null. -/
def numOrNull (o : Option ℚ) : Option ℚ :=
  match o with
  | none => none
  | some x => if x = 0 then none else some x

/-- JS `s || null` on an optional string: empty string and absent give null. -/
def strTruthy (o : Option String) : Option String :=
  match o with
  | none => none
  | some s => if s = "" then none else some s

/-- JS `s || d` on an optional string with a string default. -/
def jsOrStr (o : Option String) (d : String) : String :=
  match strTruthy o with
  | some s => s
  | none => d

/-- JS `a ?? b`: only null/undefined fall through to `b`. -/
def nullish (a b : Option ℚ) : Option ℚ :=
  match a with
  | some x => some x
  | none => b

/-- An expense row attached to a category. -/
structure Expense where
  id : Nat
  amount : ℚ
  date : String
  description : String
  type : Option String
  paymentMethod : Option String
  reference : Option String
deriving DecidableEq, Repr

/-- The allocation copy stored inside a category's own allocation sequence. -/
structure CatAllocation where
  paymentId : Option Nat
  amount : Option ℚ
  laborAmount : Option ℚ
  materialsAmount : Option ℚ
  date : Option String
deriving DecidableEq, Repr

/-- The allocation copy embedded in a payment (also the shape of an
allocation request handed to `addPayment`). -/
structure PayAllocation where
  categoryId : Option Nat
  amount : Option ℚ
  laborAmount : Option ℚ
  materialsAmount : Option ℚ
deriving DecidableEq, Repr

/-- A cost category; carries both the v2 mode-dependent budget fields and
the legacy v1 fields (`clientBudget`/`yourCost`), all optional. -/
structure Category where
  id : Nat
  name : String
  mode : Option String
  totalBudget : Option ℚ
  totalCost : Option ℚ
  laborBudget : Option ℚ
  laborCost : Option ℚ
  materialsBudget : Option ℚ
  clientBudget : Option ℚ
  yourCost : Option ℚ
  allocations : List CatAllocation
  expenses : List Expense
deriving DecidableEq, Repr

/-- A client payment; `checkNumber` is the legacy v1 field. -/
structure Payment where
  id : Nat
  paymentMethod : Option String
  reference : Option String
  checkNumber : Option String
  totalAmount : ℚ
  allocations : List PayAllocation
  date : String
  notes : Option String
deriving DecidableEq, Repr

/-- A project owning its categories and payments. -/
structure Project where
  id : Nat
  name : String
  clientName : String
  createdAt : String
  categories : List Category
  payments : List Payment
deriving DecidableEq, Repr

/-- The persisted document: schema version plus the project list. -/
structure Document where
  schemaVersion : Option Int
  projects : List Project
deriving DecidableEq, Repr

/-- `getWarningLevel(buffer, remainingToPay)` from the source: green when
nothing is left to pay, red on a shortfall, yellow when the buffer is at
most 20% of the amount still owed, green otherwise. -/
def getWarningLevel (buffer remainingToPay : ℚ) : String :=
  if remainingToPay ≤ 0 then "green"
  else
    let threshold := remainingToPay * (20 / 100)
    if buffer < 0 then "red"
    else if buffer ≤ threshold then "yellow"
    else "green"

/-- The record returned by `getCategoryTotals` for a separate-mode category. -/
structure SeparateTotals where
  laborCollected : ℚ
  laborPaid : ℚ
  laborRemainingToCollect : ℚ
  laborRemainingToPay : ℚ
  laborBuffer : ℚ
  laborWarningLevel : String
  laborProfit : ℚ
  materialsCollected : ℚ
  materialsPaid : ℚ
  materialsRemainingToCollect : ℚ
  materialsRemainingToPay : ℚ
  totalCollected : ℚ
  totalPaid : ℚ
  totalBudget : ℚ
  totalCost : ℚ
  projectedProfit : ℚ
  currentProfit : ℚ
deriving DecidableEq, Repr

/-- The record returned by `getCategoryTotals` for an all-inclusive category
(including the backward-compatibility aliases the source also returns). -/
structure AllInclusiveTotals where
  budget : ℚ
  cost : ℚ
  collected : ℚ
  paid : ℚ
  remainingToCollect : ℚ
  remainingToPay : ℚ
  buffer : ℚ
  warningLevel : String
  projectedProfit : ℚ
  currentMargin : ℚ
  clientPaid : ℚ
  youPaid : ℚ
  remaining : ℚ
  yourRemaining : ℚ
  profit : ℚ
  totalCollected : ℚ
  totalPaid : ℚ
  totalBudget : ℚ
  totalCost : ℚ
deriving DecidableEq, Repr

/-- The two shapes of object `getCategoryTotals` can return; the source
tags them with a `mode` field, here the constructor is the tag. -/
inductive CategoryTotals where
  | separate : SeparateTotals → CategoryTotals
  | allInclusive : AllInclusiveTotals → CategoryTotals
deriving DecidableEq, Repr

/-- `getCategoryTotals(category)` from the source, both modes. -/
def getCategoryTotals (c : Category) : CategoryTotals :=
  let mode := jsOrStr c.mode "all-inclusive"
  if mode = "separate" then
    let laborCollected := (c.allocations.map (fun a => jsNum a.laborAmount)).sum
    let materialsCollected := (c.allocations.map (fun a => jsNum a.materialsAmount)).sum
    let laborPaid := ((c.expenses.filter (fun e => e.type = some "labor")).map Expense.amount).sum
    let materialsPaid :=
      ((c.expenses.filter (fun e => e.type = some "materials")).map Expense.amount).sum
    let laborBudget := jsNum c.laborBudget
    let laborCost := jsNum c.laborCost
    let materialsBudget := jsNum c.materialsBudget
    let laborRemainingToCollect := laborBudget - laborCollected
    let laborRemainingToPay := laborCost - laborPaid
    let laborBuffer := laborRemainingToCollect - laborRemainingToPay
    let materialsRemainingToCollect := materialsBudget - materialsCollected
    let materialsRemainingToPay := materialsBudget - materialsPaid
    CategoryTotals.separate
      { laborCollected := laborCollected
        laborPaid := laborPaid
        laborRemainingToCollect := laborRemainingToCollect
        laborRemainingToPay := laborRemainingToPay
        laborBuffer := laborBuffer
        laborWarningLevel := getWarningLevel laborBuffer laborRemainingToPay
        laborProfit := laborBudget - laborCost
        materialsCollected := materialsCollected
        materialsPaid := materialsPaid
        materialsRemainingToCollect := materialsRemainingToCollect
        materialsRemainingToPay := materialsRemainingToPay
        totalCollected := laborCollected + materialsCollected
        totalPaid := laborPaid + materialsPaid
        totalBudget := laborBudget + materialsBudget
        totalCost := laborCost + materialsBudget
        projectedProfit := laborBudget - laborCost
        currentProfit := (laborCollected + materialsCollected) - (laborPaid + materialsPaid) }
  else
    let budget := jsNum (nullish c.totalBudget c.clientBudget)
    let cost := jsNum (nullish c.totalCost c.yourCost)
    let collected := (c.allocations.map (fun a => jsNum a.amount)).sum
    let paid := (c.expenses.map Expense.amount).sum
    let remainingToCollect := budget - collected
    let remainingToPay := cost - paid
    let buffer := remainingToCollect - remainingToPay
    CategoryTotals.allInclusive
      { budget := budget
        cost := cost
        collected := collected
        paid := paid
        remainingToCollect := remainingToCollect
        remainingToPay := remainingToPay
        buffer := buffer
        warningLevel := getWarningLevel buffer remainingToPay
        projectedProfit := budget - cost
        currentMargin := collected - paid
        clientPaid := collected
        youPaid := paid
        remaining := remainingToCollect
        yourRemaining := remainingToPay
        profit := collected - paid
        totalCollected := collected
        totalPaid := paid
        totalBudget := budget
        totalCost := cost }

/-- The per-category allocation request condition used by `addPayment`:
`(a.amount > 0) || (a.laborAmount > 0) || (a.materialsAmount > 0)`
(a comparison against an absent field is false in JS). -/
def posAmt (o : Option ℚ) : Bool :=
  match o with
  | none => false
  | some x => decide (0 < x)

/-- True when any of the three amount fields of a request is positive. -/
def hasPositiveAmount (a : PayAllocation) : Bool :=
  posAmt a.amount || posAmt a.laborAmount || posAmt a.materialsAmount

/-- The data handed to `addPayment` by the payment form. -/
structure PaymentData where
  paymentMethod : String
  reference : String
  totalAmount : ℚ
  allocations : List PayAllocation
  date : String
  notes : String
deriving DecidableEq, Repr

/-- The new payment record built by `addPayment`: requests whose amounts are
all zero or absent are filtered out of the embedded allocation list. -/
def mkNewPayment (pid : Nat) (pd : PaymentData) : Payment :=
  { id := pid
    paymentMethod := some pd.paymentMethod
    reference := some pd.reference
    checkNumber := none
    totalAmount := pd.totalAmount
    allocations := pd.allocations.filter (fun a => hasPositiveAmount a)
    date := pd.date
    notes := some pd.notes }

/-- The category-side allocation copy `addPayment` appends:
`parseFloat(x) || null` on each amount, `paymentId` and the payment's date set. -/
def mkCatCopy (pid : Nat) (date : String) (a : PayAllocation) : CatAllocation :=
  { paymentId := some pid
    amount := numOrNull a.amount
    laborAmount := numOrNull a.laborAmount
    materialsAmount := numOrNull a.materialsAmount
    date := some date }

/-- The per-category step of `addPayment`: find the (first) request aimed at
this category; if it has a positive amount, append the category-side copy. -/
def addPaymentToCategory (pid : Nat) (pd : PaymentData) (cat : Category) : Category :=
  match pd.allocations.find? (fun a => a.categoryId = some cat.id) with
  | none => cat
  | some a =>
    if hasPositiveAmount a then
      { cat with allocations := cat.allocations ++ [mkCatCopy pid pd.date a] }
    else cat

/-- `addPayment` on the in-memory project list: the project whose id is the
selected one gets the new payment appended and every category updated. -/
def addPayment (projects : List Project) (sel : Nat) (pid : Nat) (pd : PaymentData) :
    List Project :=
  projects.map fun p =>
    if p.id = sel then
      { p with
        categories := p.categories.map (addPaymentToCategory pid pd)
        payments := p.payments ++ [mkNewPayment pid pd] }
    else p

/-- `deletePayment` on the in-memory project list: the selected project loses
the payment with the given id and, in every category, every allocation whose
`paymentId` equals it. -/
def deletePayment (projects : List Project) (sel pid : Nat) : List Project :=
  projects.map fun p =>
    if p.id = sel then
      { p with
        payments := p.payments.filter (fun pay => pay.id ≠ pid)
        categories := p.categories.map fun cat =>
          { cat with allocations := cat.allocations.filter (fun a => a.paymentId ≠ some pid) } }
    else p

/-- `deleteCategory` on the in-memory project list: the selected project's
category list drops the category with the given id; payments are untouched. -/
def deleteCategory (projects : List Project) (sel cid : Nat) : List Project :=
  projects.map fun p =>
    if p.id = sel then
      { p with categories := p.categories.filter (fun c => c.id ≠ cid) }
    else p

/-- The category name shown for an allocation in the payments tab:
`categories.find(c => c.id === alloc.categoryId)` then `cat?.name || 'Unknown'`. -/
def allocationDisplayName (categories : List Category) (a : PayAllocation) : String :=
  match categories.find? (fun c => a.categoryId = some c.id) with
  | some c => if c.name = "" then "Unknown" else c.name
  | none => "Unknown"

/-- The data handed to `addExpense` by the expense form. -/
structure ExpenseData where
  categoryId : Nat
  amount : ℚ
  date : String
  description : String
  type : Option String
  paymentMethod : Option String
  reference : Option String
deriving DecidableEq, Repr

/-- `NewExpenseForm.handleSubmit`: the `type` is the chosen expense type only
when the selected category exists and is in separate mode, else null;
empty payment method / reference become null. -/
def newExpenseSubmit (categories : List Category) (categoryId : Nat) (expenseType : String)
    (amount : ℚ) (date description paymentMethod reference : String) : ExpenseData :=
  let selectedCategory := categories.find? (fun c => c.id = categoryId)
  let isSeparateMode : Bool :=
    match selectedCategory with
    | some c => decide (c.mode = some "separate")
    | none => false
  { categoryId := categoryId
    amount := amount
    date := date
    description := description
    type := if isSeparateMode then some expenseType else none
    paymentMethod := if paymentMethod = "" then none else some paymentMethod
    reference := if reference = "" then none else some reference }

/-- The new expense record built by `addExpense` (`expenseData.type || null`
and the same `|| null` on payment method and reference). -/
def mkNewExpense (eid : Nat) (ed : ExpenseData) : Expense :=
  { id := eid
    amount := ed.amount
    date := ed.date
    description := ed.description
    type := strTruthy ed.type
    paymentMethod := strTruthy ed.paymentMethod
    reference := strTruthy ed.reference }

/-- `addExpense` on the in-memory project list: in the selected project, the
category whose id matches the expense data gets the new expense appended. -/
def addExpense (projects : List Project) (sel : Nat) (eid : Nat) (ed : ExpenseData) :
    List Project :=
  projects.map fun p =>
    if p.id = sel then
      { p with
        categories := p.categories.map fun cat =>
          if cat.id = ed.categoryId then
            { cat with expenses := cat.expenses ++ [mkNewExpense eid ed] }
          else cat }
    else p

/-- `data.schemaVersion || 1`: absent (and the falsy 0) default to 1. -/
def schemaVersionOr1 (d : Document) : Int :=
  match d.schemaVersion with
  | none => 1
  | some v => if v = 0 then 1 else v

/-- Migration of one allocation (both the category-side and the payment-side
transformations use the same field updates): `amount ?? 0`,
`laborAmount || null`, `materialsAmount || null`. -/
def migrateCatAllocation (a : CatAllocation) : CatAllocation :=
  { a with
    amount := some (a.amount.getD 0)
    laborAmount := numOrNull a.laborAmount
    materialsAmount := numOrNull a.materialsAmount }

/-- Migration of a payment-embedded allocation, same defaulting. -/
def migratePayAllocation (a : PayAllocation) : PayAllocation :=
  { a with
    amount := some (a.amount.getD 0)
    laborAmount := numOrNull a.laborAmount
    materialsAmount := numOrNull a.materialsAmount }

/-- Migration of one expense: `type`, `paymentMethod`, `reference`
all `|| null`. -/
def migrateExpense (e : Expense) : Expense :=
  { e with
    type := strTruthy e.type
    paymentMethod := strTruthy e.paymentMethod
    reference := strTruthy e.reference }

/-- Migration of one category to all-inclusive mode:
`totalBudget = clientBudget ?? totalBudget ?? 0`,
`totalCost = yourCost ?? totalCost ?? 0`, separate-mode fields nulled. -/
def migrateCategory (c : Category) : Category :=
  { c with
    mode := some "all-inclusive"
    totalBudget := some (jsNum (nullish c.clientBudget c.totalBudget))
    totalCost := some (jsNum (nullish c.yourCost c.totalCost))
    laborBudget := none
    laborCost := none
    materialsBudget := none
    expenses := c.expenses.map migrateExpense
    allocations := c.allocations.map migrateCatAllocation }

/-- Migration of one payment: `paymentMethod || 'check'`,
`reference || checkNumber || ''`, allocations defaulted. -/
def migratePayment (p : Payment) : Payment :=
  { p with
    paymentMethod := some (jsOrStr p.paymentMethod "check")
    reference := some (jsOrStr p.reference (jsOrStr p.checkNumber ""))
    allocations := p.allocations.map migratePayAllocation }

/-- Migration of one project: all categories and payments migrated. -/
def migrateProject (p : Project) : Project :=
  { p with
    categories := p.categories.map migrateCategory
    payments := p.payments.map migratePayment }

/-- `migrateData` from the source: documents already at version 2 or later
are returned unchanged; otherwise every project is migrated and the
document is stamped with schema version 2. -/
def migrateData (d : Document) : Document :=
  if schemaVersionOr1 d ≥ 2 then d
  else
    { d with
      projects := d.projects.map migrateProject
      schemaVersion := some 2 }

/-- Modelled from the spec (§4.1 step 4, claim C7's wording): the value the
claim says migration assigns to a payment's `reference`, namely the first
DEFINED value of the chain `reference ?? checkNumber ?? ''` (nullish
coalescing, under which a present-but-empty string is kept). The source
itself uses `||`; this definition exists to compare the claim against it. -/
def referenceSpecNullish (p : Payment) : String :=
  (p.reference.or p.checkNumber).getD ""

/-- Sample payment about to be deleted in the C3 scenario. -/
def samplePaymentC3 : Payment :=
  Payment.mk 10 (some "check") (some "") none 1000
    [PayAllocation.mk (some 100) (some 1000) none none] "2024-01-05" none

/-- Sample selected project owning `samplePaymentC3` and allocations from it. -/
def sampleProjectC3 : Project :=
  Project.mk 1 "Remodel" "Ann" "2024-01-01"
    [Category.mk 100 "Kitchen" (some "all-inclusive") (some 5000) (some 4000)
      none none none none none
      [CatAllocation.mk (some 10) (some 1000) none none (some "2024-01-05"),
       CatAllocation.mk (some 7) (some 50) none none none]
      []]
    [samplePaymentC3,
     Payment.mk 7 (some "cash") (some "") none 50 [] "2024-01-02" none]

/-- Sample second project holding no allocation of the deleted payment. -/
def sampleOtherC3 : Project :=
  Project.mk 2 "Deck" "Bob" "2024-01-01"
    [Category.mk 200 "Wood" none (some 100) (some 80) none none none none none
      [CatAllocation.mk (some 77) (some 5) none none none] []]
    []

/-- Sample project list for the C3 scenario. -/
def sampleProjectsC3 : List Project := [sampleProjectC3, sampleOtherC3]

/-- Sample project for the C8 scenario: a payment embeds an allocation that
references category 100, which is about to be deleted. -/
def sampleProjectC8 : Project :=
  Project.mk 3 "House" "Cara" "2024-02-01"
    [Category.mk 100 "Roof" (some "all-inclusive") (some 900) (some 700) none none none
       none none [] [],
     Category.mk 101 "Walls" none (some 10) (some 5) none none none none none [] []]
    [Payment.mk 50 (some "zelle") (some "z1") none 300
      [PayAllocation.mk (some 100) (some 300) none none] "2024-02-02" none]

/-- Sample project list for the C8 scenario. -/
def sampleProjectsC8 : List Project := [sampleProjectC8]

/-- Sample all-inclusive category for the C9 scenario. -/
def sampleCategoryC9 : Category :=
  Category.mk 300 "Paint" (some "all-inclusive") (some 100) (some 60) none none none
    none none [] []

/-- Sample project for the C9 scenario. -/
def sampleProjectC9 : Project :=
  Project.mk 4 "Office" "Dan" "2024-03-01" [sampleCategoryC9] []

/-- Sample project list for the C9 scenario. -/
def sampleProjectsC9 : List Project := [sampleProjectC9]

/-- The per-category facts claim C6 asserts of a migrated category `c'`
against its original `c`: all-inclusive mode, defaulted budgets, nulled
separate-mode fields, and no allocation or expense dropped. -/
def categoryMigrated (c c' : Category) : Prop :=
  c'.mode = some "all-inclusive"
  ∧ c'.totalBudget = some (jsNum (nullish c.clientBudget c.totalBudget))
  ∧ c'.totalCost = some (jsNum (nullish c.yourCost c.totalCost))
  ∧ c'.laborBudget = none
  ∧ c'.laborCost = none
  ∧ c'.materialsBudget = none
  ∧ c'.allocations.length = c.allocations.length
  ∧ c'.expenses.length = c.expenses.length

/-- The per-project facts claim C6 asserts of a migrated project `q` against
its original `p`: same number of categories and payments, each category
migrated as in `categoryMigrated`, and each payment keeping its allocation
count. -/
def projectMigrated (p q : Project) : Prop :=
  q.categories.length = p.categories.length
  ∧ q.payments.length = p.payments.length
  ∧ List.Forall₂ categoryMigrated p.categories q.categories
  ∧ List.Forall₂ (fun pay pay' => pay'.allocations.length = pay.allocations.length)
      p.payments q.payments

/-- Sample version-1 document for the C6 scenario. -/
def sampleDocC6 : Document :=
  Document.mk none
    [Project.mk 1 "Old" "Eve" "2023-05-01"
      [Category.mk 11 "Deck" none none none none none none (some 8000) (some 6000)
        [CatAllocation.mk (some 21) (some 1000) none none none]
        [Expense.mk 31 500 "2023-06-01" "lumber" none none none]]
      [Payment.mk 21 none none (some "457") 1000
        [PayAllocation.mk (some 11) (some 1000) none none] "2023-06-02" none]]

/-- Sample version-1 document for the C7 counterexample: the payment's
`reference` is present but empty while the legacy `checkNumber` is "1234". -/
def sampleDocC7 : Document :=
  Document.mk (some 1)
    [Project.mk 5 "Legacy" "Fay" "2023-01-01" []
      [Payment.mk 60 none (some "") (some "1234") 700 [] "2023-02-01" none]]

/-- Sample v1 payment with no reference and a legacy check number. -/
def samplePaymentC7 : Payment :=
  Payment.mk 61 none none (some "77") 100 [] "2023-02-02" none

/-- Sample version-1 document containing `samplePaymentC7`. -/
def sampleDocC7b : Document :=
  Document.mk (some 1)
    [Project.mk 6 "Legacy2" "Gil" "2023-01-05" [] [samplePaymentC7]]

/-- Sample payment form data for the C4 scenario: one request with a
positive amount for category 400 and one all-zero request for category 401. -/
def samplePDC4 : PaymentData :=
  PaymentData.mk "check" "555" 800
    [PayAllocation.mk (some 400) (some 800) none none,
     PayAllocation.mk (some 401) (some 0) none none]
    "2024-04-01" ""

/-- Sample category 400 for the C4 scenario. -/
def sampleCatC4a : Category :=
  Category.mk 400 "Floors" (some "all-inclusive") (some 2000) (some 1500) none none none
    none none [] []

/-- Sample category 401 for the C4 scenario. -/
def sampleCatC4b : Category :=
  Category.mk 401 "Doors" (some "all-inclusive") (some 300) (some 200) none none none
    none none [] []

/-- Sample selected project for the C4 scenario. -/
def sampleProjectC4 : Project :=
  Project.mk 7 "Flip" "Hal" "2024-03-30" [sampleCatC4a, sampleCatC4b] []

/-- Sample project list for the C4 scenario. -/
def sampleProjectsC4 : List Project := [sampleProjectC4]

/-- C1: the warning level is decided exactly by the documented rule with its
precedence — `remainingToPay ≤ 0` gives green regardless of the buffer;
otherwise a negative buffer gives red (never yellow); otherwise a buffer at
most 20% of `remainingToPay` gives yellow; otherwise green — and every
warning level `getCategoryTotals` produces is computed by that rule from the
corresponding buffer and remaining-to-pay figures. -/
theorem getWarningLevel_rule (b r : ℚ) :
    (r ≤ 0 → getWarningLevel b r = "green")
    ∧ (0 < r → b < 0 → getWarningLevel b r = "red" ∧ getWarningLevel b r ≠ "yellow")
    ∧ (0 < r → 0 ≤ b → b ≤ 20 / 100 * r → getWarningLevel b r = "yellow")
    ∧ (0 < r → 20 / 100 * r < b → getWarningLevel b r = "green")
    ∧ (∀ (c : Category) (t : SeparateTotals), getCategoryTotals c = CategoryTotals.separate t →
        t.laborWarningLevel = getWarningLevel t.laborBuffer t.laborRemainingToPay)
    ∧ (∀ (c : Category) (t : AllInclusiveTotals),
        getCategoryTotals c = CategoryTotals.allInclusive t →
        t.warningLevel = getWarningLevel t.buffer t.remainingToPay) := by
  refine ⟨?_, ?_, ?_, ?_, ?_, ?_⟩
  · intro hr
    simp [getWarningLevel, hr]
  · intro hr hb
    have h1 : ¬ r ≤ 0 := not_le.mpr hr
    refine ⟨?_, ?_⟩ <;> simp [getWarningLevel, h1, hb]
  · intro hr hb0 hb
    have h1 : ¬ r ≤ 0 := not_le.mpr hr
    have h2 : ¬ b < 0 := not_lt.mpr hb0
    have h3 : b ≤ r * (20 / 100) := by linarith
    simp [getWarningLevel, h1, h2, h3]
  · intro hr hb
    have h1 : ¬ r ≤ 0 := not_le.mpr hr
    have h2 : ¬ b < 0 := by
      have : (0 : ℚ) < 20 / 100 * r := by positivity
      exact not_lt.mpr (by linarith)
    have h3 : ¬ b ≤ r * (20 / 100) := by
      intro hle
      have : b ≤ 20 / 100 * r := by linarith
      linarith
    simp [getWarningLevel, h1, h2, h3]
  · intro c t ht
    by_cases h : jsOrStr c.mode "all-inclusive" = "separate"
    · simp only [getCategoryTotals, h, if_true] at ht
      injection ht with h2
      subst h2
      rfl
    · simp only [getCategoryTotals, h, if_false] at ht
      exact (CategoryTotals.noConfusion ht)
  · intro c t ht
    by_cases h : jsOrStr c.mode "all-inclusive" = "separate"
    · simp only [getCategoryTotals, h, if_true] at ht
      exact (CategoryTotals.noConfusion ht)
    · simp only [getCategoryTotals, h, if_false] at ht
      injection ht with h2
      subst h2
      rfl

/-- C1 witness: the rule instantiated at the spec's own worked example
(buffer 3000 against 17000 still owed is yellow) and at a shortfall. -/
theorem getWarningLevel_rule_witness :
    ((0 : ℚ) < 17000 ∧ (0 : ℚ) ≤ 3000 ∧ (3000 : ℚ) ≤ 20 / 100 * 17000
      ∧ getWarningLevel 3000 17000 = "yellow")
    ∧ ((-1 : ℚ) < 0 ∧ getWarningLevel (-1) 17000 = "red") :=
  ⟨⟨by norm_num, by norm_num, by norm_num,
    (getWarningLevel_rule 3000 17000).2.2.1 (by norm_num) (by norm_num) (by norm_num)⟩,
   by norm_num,
   ((getWarningLevel_rule (-1) 17000).2.1 (by norm_num) (by norm_num)).1⟩

/-- Helper: the warning rule only ever produces one of the three levels. -/
theorem getWarningLevel_mem (b r : ℚ) :
    getWarningLevel b r = "green" ∨ getWarningLevel b r = "yellow"
      ∨ getWarningLevel b r = "red" := by
  simp only [getWarningLevel]
  split_ifs <;> simp

/-- C2: for a separate-mode category the combined totals satisfy
`totalCollected = laborCollected + materialsCollected`,
`totalPaid = laborPaid + materialsPaid`,
`totalBudget = laborBudget + materialsBudget`,
`totalCost = laborCost + materialsBudget` (materials enter cost at budget
price), `projectedProfit = laborBudget - laborCost`, and
`materialsRemainingToPay = materialsBudget - materialsPaid`. -/
theorem separate_mode_combined_totals (c : Category) (h : c.mode = some "separate") :
    ∃ t : SeparateTotals, getCategoryTotals c = CategoryTotals.separate t
      ∧ t.totalCollected = t.laborCollected + t.materialsCollected
      ∧ t.totalPaid = t.laborPaid + t.materialsPaid
      ∧ t.totalBudget = jsNum c.laborBudget + jsNum c.materialsBudget
      ∧ t.totalCost = jsNum c.laborCost + jsNum c.materialsBudget
      ∧ t.projectedProfit = jsNum c.laborBudget - jsNum c.laborCost
      ∧ t.materialsRemainingToPay = jsNum c.materialsBudget - t.materialsPaid := by
  have hm : jsOrStr c.mode "all-inclusive" = "separate" := by
    simp [jsOrStr, strTruthy, h]
  cases he : getCategoryTotals c with
  | separate t =>
      refine ⟨t, rfl, ?_, ?_, ?_, ?_, ?_, ?_⟩ <;>
        · simp only [getCategoryTotals, hm, if_true] at he
          injection he with h2
          subst h2
          rfl
  | allInclusive t =>
      simp only [getCategoryTotals, hm, if_true] at he
      exact (CategoryTotals.noConfusion he)

/-- C2 witness: a concrete separate-mode category with one allocation and
one expense of each type. -/
theorem separate_mode_combined_totals_witness :
    (Category.mk 1 "Kitchen" (some "separate") none none (some 45000) (some 32000)
        (some 12000) none none
        [CatAllocation.mk (some 9) none (some 32000) (some 6000) (some "2024-01-01")]
        [Expense.mk 5 32000 "2024-01-02" "sub" (some "labor") none none]).mode
      = some "separate"
    ∧ ∃ t : SeparateTotals,
        getCategoryTotals
          (Category.mk 1 "Kitchen" (some "separate") none none (some 45000) (some 32000)
            (some 12000) none none
            [CatAllocation.mk (some 9) none (some 32000) (some 6000) (some "2024-01-01")]
            [Expense.mk 5 32000 "2024-01-02" "sub" (some "labor") none none])
          = CategoryTotals.separate t
        ∧ t.totalCollected = t.laborCollected + t.materialsCollected
        ∧ t.totalPaid = t.laborPaid + t.materialsPaid
        ∧ t.totalBudget = jsNum (some 45000) + jsNum (some 12000)
        ∧ t.totalCost = jsNum (some 32000) + jsNum (some 12000)
        ∧ t.projectedProfit = jsNum (some 45000) - jsNum (some 32000)
        ∧ t.materialsRemainingToPay = jsNum (some 12000) - t.materialsPaid :=
  ⟨rfl, separate_mode_combined_totals _ rfl⟩

/-- C10: a category whose mode is absent or anything other than `separate`
is aggregated by the all-inclusive formulas with
`budget = totalBudget ?? clientBudget ?? 0` and
`cost = totalCost ?? yourCost ?? 0`, so an unmigrated v1 category still
yields well-defined totals and one of the three warning levels. -/
theorem allInclusive_default_totals (c : Category) (h : c.mode ≠ some "separate") :
    ∃ t : AllInclusiveTotals, getCategoryTotals c = CategoryTotals.allInclusive t
      ∧ t.budget = jsNum (nullish c.totalBudget c.clientBudget)
      ∧ t.cost = jsNum (nullish c.totalCost c.yourCost)
      ∧ t.collected = (c.allocations.map (fun a => jsNum a.amount)).sum
      ∧ t.paid = (c.expenses.map Expense.amount).sum
      ∧ t.remainingToCollect = t.budget - t.collected
      ∧ t.remainingToPay = t.cost - t.paid
      ∧ t.buffer = t.remainingToCollect - t.remainingToPay
      ∧ t.warningLevel = getWarningLevel t.buffer t.remainingToPay
      ∧ (t.warningLevel = "green" ∨ t.warningLevel = "yellow" ∨ t.warningLevel = "red") := by
  have hm : ¬ jsOrStr c.mode "all-inclusive" = "separate" := by
    cases hc : c.mode with
    | none => simp [jsOrStr, strTruthy]
    | some m =>
        have hms : m ≠ "separate" := by
          intro hEq
          exact h (by rw [hc, hEq])
        by_cases hm0 : m = "" <;> simp [jsOrStr, strTruthy, hm0, hms]
  cases he : getCategoryTotals c with
  | separate t =>
      simp only [getCategoryTotals, hm, if_false] at he
      exact (CategoryTotals.noConfusion he)
  | allInclusive t =>
      refine ⟨t, rfl, ?_, ?_, ?_, ?_, ?_, ?_, ?_, ?_, ?_⟩ <;>
        · simp only [getCategoryTotals, hm, if_false] at he
          injection he with h2
          subst h2
          first
          | rfl
          | exact getWarningLevel_mem _ _

/-- C10 witness: an unmigrated v1-shaped category (no mode, only
`clientBudget`/`yourCost`) from the spec's worked example. -/
theorem allInclusive_default_totals_witness :
    (Category.mk 2 "Bath" none none none none none none (some 30000) (some 22000)
        [CatAllocation.mk (some 3) (some 10000) none none none]
        [Expense.mk 4 5000 "2024-01-03" "tile sub" none none none]).mode
      ≠ some "separate"
    ∧ ∃ t : AllInclusiveTotals,
        getCategoryTotals
          (Category.mk 2 "Bath" none none none none none none (some 30000) (some 22000)
            [CatAllocation.mk (some 3) (some 10000) none none none]
            [Expense.mk 4 5000 "2024-01-03" "tile sub" none none none])
          = CategoryTotals.allInclusive t
        ∧ t.budget = jsNum (nullish none (some 30000))
        ∧ t.cost = jsNum (nullish none (some 22000))
        ∧ t.collected = ([CatAllocation.mk (some 3) (some 10000) none none none].map
            (fun a => jsNum a.amount)).sum
        ∧ t.paid = ([Expense.mk 4 5000 "2024-01-03" "tile sub" none none none].map
            Expense.amount).sum
        ∧ t.remainingToCollect = t.budget - t.collected
        ∧ t.remainingToPay = t.cost - t.paid
        ∧ t.buffer = t.remainingToCollect - t.remainingToPay
        ∧ t.warningLevel = getWarningLevel t.buffer t.remainingToPay
        ∧ (t.warningLevel = "green" ∨ t.warningLevel = "yellow" ∨ t.warningLevel = "red") :=
  ⟨by simp, allInclusive_default_totals _ (by simp)⟩

/-- C5: schema migration is idempotent — `migrate (migrate d) = migrate d`
for every document — and any document whose schema version is at least 2 is
returned unchanged. -/
theorem migrateData_idempotent (d : Document) :
    migrateData (migrateData d) = migrateData d
    ∧ ∀ v : Int, d.schemaVersion = some v → 2 ≤ v → migrateData d = d := by
  constructor
  · by_cases h : schemaVersionOr1 d ≥ 2
    · simp [migrateData, h]
    · have h1 : migrateData d
          = { d with projects := d.projects.map migrateProject, schemaVersion := some 2 } := by
        rw [migrateData, if_neg h]
      have h2 : schemaVersionOr1
          { d with projects := d.projects.map migrateProject, schemaVersion := some 2 } ≥ 2 := by
        simp [schemaVersionOr1]
      rw [h1, migrateData, if_pos h2]
  · intro v hv h2
    have hv0 : v ≠ 0 := by omega
    have hge : schemaVersionOr1 d ≥ 2 := by
      simp [schemaVersionOr1, hv, hv0]
      exact h2
    rw [migrateData, if_pos hge]

/-- C5 witness: at a concrete version-2 document the double migration agrees
with the single one and the document comes back unchanged. -/
theorem migrateData_idempotent_witness :
    migrateData (migrateData (Document.mk (some 2) []))
      = migrateData (Document.mk (some 2) [])
    ∧ (Document.mk (some 2) []).schemaVersion = some 2
    ∧ migrateData (Document.mk (some 2) []) = Document.mk (some 2) [] :=
  ⟨(migrateData_idempotent (Document.mk (some 2) [])).1, rfl,
   (migrateData_idempotent (Document.mk (some 2) [])).2 2 rfl (by norm_num)⟩

/-- C3: after deleting payment P from its (selected) project, P is absent
from that project's payment sequence and no category of any project keeps an
allocation whose `paymentId` equals P's id — given the data-model invariant
that allocations in other projects never reference P (allocations only
reference the payment of their own project). -/
theorem deletePayment_consistency (projects : List Project) (sel : Nat) (P : Payment)
    (proj : Project) (hproj : proj ∈ projects) (hsel : proj.id = sel)
    (hP : P ∈ proj.payments)
    (hother : ∀ q ∈ projects, q.id ≠ sel → ∀ cat ∈ q.categories, ∀ a ∈ cat.allocations,
      a.paymentId ≠ some P.id) :
    (∀ q ∈ deletePayment projects sel P.id, q.id = sel →
        (∀ pay ∈ q.payments, pay.id ≠ P.id) ∧ P ∉ q.payments)
    ∧ (∀ q ∈ deletePayment projects sel P.id, ∀ cat ∈ q.categories, ∀ a ∈ cat.allocations,
        a.paymentId ≠ some P.id) := by
  constructor
  · intro q hq hqid
    rw [deletePayment, List.mem_map] at hq
    obtain ⟨p, hp, hfq⟩ := hq
    by_cases hpid : p.id = sel
    · rw [if_pos hpid] at hfq
      subst hfq
      constructor
      · intro pay hpay
        simp only [List.mem_filter, decide_eq_true_eq] at hpay
        exact hpay.2
      · intro hPin
        simp only [List.mem_filter, decide_eq_true_eq] at hPin
        exact hPin.2 rfl
    · rw [if_neg hpid] at hfq
      subst hfq
      exact absurd hqid hpid
  · intro q hq cat hcat a ha
    rw [deletePayment, List.mem_map] at hq
    obtain ⟨p, hp, hfq⟩ := hq
    by_cases hpid : p.id = sel
    · rw [if_pos hpid] at hfq
      subst hfq
      simp only [List.mem_map] at hcat
      obtain ⟨cat0, hcat0, hcateq⟩ := hcat
      subst hcateq
      simp only [List.mem_filter, decide_eq_true_eq] at ha
      exact ha.2
    · rw [if_neg hpid] at hfq
      subst hfq
      exact hother p hp hpid cat hcat a ha

/-- C3 witness: the concrete two-project state with the deletion applied to
the selected project's payment with id 10. -/
theorem deletePayment_consistency_witness :
    (sampleProjectC3 ∈ sampleProjectsC3
      ∧ sampleProjectC3.id = 1
      ∧ samplePaymentC3 ∈ sampleProjectC3.payments
      ∧ (∀ q ∈ sampleProjectsC3, q.id ≠ 1 → ∀ cat ∈ q.categories, ∀ a ∈ cat.allocations,
          a.paymentId ≠ some samplePaymentC3.id))
    ∧ ((∀ q ∈ deletePayment sampleProjectsC3 1 samplePaymentC3.id, q.id = 1 →
          (∀ pay ∈ q.payments, pay.id ≠ samplePaymentC3.id) ∧ samplePaymentC3 ∉ q.payments)
      ∧ (∀ q ∈ deletePayment sampleProjectsC3 1 samplePaymentC3.id, ∀ cat ∈ q.categories,
          ∀ a ∈ cat.allocations, a.paymentId ≠ some samplePaymentC3.id)) :=
  ⟨⟨by simp [sampleProjectsC3], rfl, by simp [sampleProjectC3],
    by decide⟩,
   deletePayment_consistency sampleProjectsC3 1 samplePaymentC3 sampleProjectC3
     (by simp [sampleProjectsC3]) rfl (by simp [sampleProjectC3]) (by decide)⟩

/-- C8: deleting category C from the selected project removes it (with its
allocations and expenses) from the category list, keeps every other category,
leaves every payment — including embedded allocations referencing C —
unchanged, and rendering such an allocation afterwards yields the
"Unknown" placeholder instead of raising. -/
theorem deleteCategory_frame (projects : List Project) (sel cid : Nat) (p : Project)
    (hp : p ∈ projects) (hsel : p.id = sel) :
    ∃ q ∈ deleteCategory projects sel cid,
      q.payments = p.payments
      ∧ (∀ c ∈ q.categories, c.id ≠ cid)
      ∧ (∀ c ∈ p.categories, c.id ≠ cid → c ∈ q.categories)
      ∧ ∀ pay ∈ q.payments, ∀ a ∈ pay.allocations, a.categoryId = some cid →
          allocationDisplayName q.categories a = "Unknown" := by
  refine ⟨{ p with categories := p.categories.filter (fun c => c.id ≠ cid) },
    ?_, rfl, ?_, ?_, ?_⟩
  · rw [deleteCategory, List.mem_map]
    exact ⟨p, hp, by rw [if_pos hsel]⟩
  · intro c hc
    simp only [List.mem_filter, decide_eq_true_eq] at hc
    exact hc.2
  · intro c hc hne
    simp only [List.mem_filter, decide_eq_true_eq]
    exact ⟨hc, hne⟩
  · intro pay hpay a ha hacid
    have hnone : (p.categories.filter (fun c => c.id ≠ cid)).find?
        (fun c => a.categoryId = some c.id) = none := by
      rw [List.find?_eq_none]
      intro c hc
      simp only [List.mem_filter, decide_eq_true_eq] at hc
      simp only [hacid, decide_eq_true_eq]
      intro hEq
      exact hc.2 (Option.some.inj hEq).symm
    simp only [allocationDisplayName, hnone]

/-- C8 witness: deleting category 100 from the concrete sample project; the
payment still embeds the allocation pointing at it, displayed as "Unknown". -/
theorem deleteCategory_frame_witness :
    (sampleProjectC8 ∈ sampleProjectsC8 ∧ sampleProjectC8.id = 3)
    ∧ ∃ q ∈ deleteCategory sampleProjectsC8 3 100,
        q.payments = sampleProjectC8.payments
        ∧ (∀ c ∈ q.categories, c.id ≠ 100)
        ∧ (∀ c ∈ sampleProjectC8.categories, c.id ≠ 100 → c ∈ q.categories)
        ∧ ∀ pay ∈ q.payments, ∀ a ∈ pay.allocations, a.categoryId = some 100 →
            allocationDisplayName q.categories a = "Unknown" :=
  ⟨⟨by simp [sampleProjectsC8], rfl⟩,
   deleteCategory_frame sampleProjectsC8 3 100 sampleProjectC8
     (by simp [sampleProjectsC8]) rfl⟩

/-- C9: the expense stored by the add-expense flow (form submission feeding
`addExpense`) carries a non-null `type` only when the owning category — the
one found by id in the selected project — is in separate mode; whenever that
category is all-inclusive (or any non-separate mode, or missing) the stored
`type` is null; and the stored expense is exactly the one appended to the
owning category. -/
theorem addExpense_type_only_separate (projects : List Project) (sel : Nat) (p : Project)
    (hp : p ∈ projects) (hsel : p.id = sel)
    (categoryId : Nat) (expenseType : String) (amount : ℚ)
    (date descr pm ref : String) (eid : Nat) :
    ((mkNewExpense eid
        (newExpenseSubmit p.categories categoryId expenseType amount date descr pm ref)).type
        ≠ none →
      ∃ c, p.categories.find? (fun c => c.id = categoryId) = some c
        ∧ c.mode = some "separate")
    ∧ (∀ c, p.categories.find? (fun c => c.id = categoryId) = some c →
        c.mode ≠ some "separate" →
        (mkNewExpense eid
          (newExpenseSubmit p.categories categoryId expenseType amount date descr pm ref)).type
          = none)
    ∧ (p.categories.find? (fun c => c.id = categoryId) = none →
        (mkNewExpense eid
          (newExpenseSubmit p.categories categoryId expenseType amount date descr pm ref)).type
          = none)
    ∧ ∃ q ∈ addExpense projects sel eid
          (newExpenseSubmit p.categories categoryId expenseType amount date descr pm ref),
        q.categories = p.categories.map (fun cat =>
          if cat.id = categoryId then
            { cat with expenses := cat.expenses ++
                [mkNewExpense eid
                  (newExpenseSubmit p.categories categoryId expenseType amount date descr pm ref)] }
          else cat) := by
  refine ⟨?_, ?_, ?_, ?_⟩
  · intro hty
    cases hfind : p.categories.find? (fun c => c.id = categoryId) with
    | none =>
        exfalso
        apply hty
        simp [mkNewExpense, newExpenseSubmit, hfind, strTruthy]
    | some c =>
        by_cases hmode : c.mode = some "separate"
        · exact ⟨c, rfl, hmode⟩
        · exfalso
          apply hty
          simp [mkNewExpense, newExpenseSubmit, hfind, hmode, strTruthy]
  · intro c hfind hmode
    simp [mkNewExpense, newExpenseSubmit, hfind, hmode, strTruthy]
  · intro hfind
    simp [mkNewExpense, newExpenseSubmit, hfind, strTruthy]
  · refine ⟨{ p with categories := p.categories.map (fun cat =>
        if cat.id = categoryId then
          { cat with expenses := cat.expenses ++
              [mkNewExpense eid
                (newExpenseSubmit p.categories categoryId expenseType amount date descr pm ref)] }
        else cat) }, ?_, rfl⟩
    rw [addExpense, List.mem_map]
    refine ⟨p, hp, ?_⟩
    rw [if_pos hsel]
    rfl

/-- C9 witness: adding a labor-typed expense through the form against the
concrete all-inclusive category stores a null type. -/
theorem addExpense_type_only_separate_witness :
    (sampleProjectC9 ∈ sampleProjectsC9
      ∧ sampleProjectC9.id = 4
      ∧ sampleProjectC9.categories.find? (fun c => c.id = 300) = some sampleCategoryC9
      ∧ sampleCategoryC9.mode ≠ some "separate")
    ∧ (mkNewExpense 99
        (newExpenseSubmit sampleProjectC9.categories 300 "labor" 250 "2024-03-02"
          "paint sub" "" "")).type = none :=
  ⟨⟨by simp [sampleProjectsC9], rfl, by decide, by decide⟩,
   (addExpense_type_only_separate sampleProjectsC9 4 sampleProjectC9
      (by simp [sampleProjectsC9]) rfl 300 "labor" 250 "2024-03-02" "paint sub" "" "" 99).2.1
     sampleCategoryC9 (by decide) (by decide)⟩

/-- C6: migration of a version-1 document drops no record — same number of
projects, same number of categories and payments per project, same number of
allocations and expenses per category and per payment — and every migrated
category is all-inclusive with `totalBudget = clientBudget ?? totalBudget ?? 0`,
`totalCost = yourCost ?? totalCost ?? 0` and nulled separate-mode fields;
every missing field is defaulted rather than failing (the migration is a
total function). -/
theorem migrateData_totality (d : Document) (h : schemaVersionOr1 d < 2) :
    (migrateData d).projects.length = d.projects.length
    ∧ List.Forall₂ projectMigrated d.projects (migrateData d).projects := by
  have hnot : ¬ schemaVersionOr1 d ≥ 2 := not_le.mpr h
  have hd : migrateData d
      = { d with projects := d.projects.map migrateProject, schemaVersion := some 2 } := by
    rw [migrateData, if_neg hnot]
  rw [hd]
  constructor
  · exact List.length_map _ _
  · show List.Forall₂ projectMigrated d.projects (d.projects.map migrateProject)
    rw [List.forall₂_map_right_iff, List.forall₂_same]
    intro p hp
    refine ⟨List.length_map _ _, List.length_map _ _, ?_, ?_⟩
    · show List.Forall₂ categoryMigrated p.categories (p.categories.map migrateCategory)
      rw [List.forall₂_map_right_iff, List.forall₂_same]
      intro c hc
      exact ⟨rfl, rfl, rfl, rfl, rfl, rfl, List.length_map _ _, List.length_map _ _⟩
    · show List.Forall₂ _ p.payments (p.payments.map migratePayment)
      rw [List.forall₂_map_right_iff, List.forall₂_same]
      intro pay hpay
      exact List.length_map _ _

/-- C6 witness: the concrete one-project v1 document is migrated with all
counts preserved and defaults filled. -/
theorem migrateData_totality_witness :
    schemaVersionOr1 sampleDocC6 < 2
    ∧ (migrateData sampleDocC6).projects.length = sampleDocC6.projects.length
    ∧ List.Forall₂ projectMigrated sampleDocC6.projects (migrateData sampleDocC6).projects :=
  ⟨by decide, migrateData_totality sampleDocC6 (by decide)⟩

/-- C7 counterexample: the claim says migration sets `reference` to the
first DEFINED value of `reference ?? checkNumber ?? ''`; on a v1 payment
whose `reference` is the (defined) empty string and whose `checkNumber`
is "1234", that chain keeps the empty string, but migration yields "1234"
(the source uses JS `||`, under which an empty string falls through). -/
theorem migrate_reference_counterexample :
    schemaVersionOr1 sampleDocC7 < 2
    ∧ (migrateData sampleDocC7).projects.map (fun p => p.payments.map Payment.reference)
        ≠ sampleDocC7.projects.map
            (fun p => p.payments.map (fun pay => some (referenceSpecNullish pay))) := by
  constructor
  · decide
  · decide

/-- C7 amended: for every payment in a version-1 document, migration sets
`paymentMethod` to "check" when it is absent, and sets `reference` by JS
`||` semantics — the payment's existing reference when present and
non-empty, otherwise the legacy `checkNumber` when present and non-empty,
otherwise the empty string. -/
theorem migratePayment_reference_amended (d : Document) (h : schemaVersionOr1 d < 2) :
    ((migrateData d).projects = d.projects.map migrateProject)
    ∧ (∀ p : Project, (migrateProject p).payments = p.payments.map migratePayment)
    ∧ ∀ pay : Payment,
        (pay.paymentMethod = none → (migratePayment pay).paymentMethod = some "check")
        ∧ (∀ r, pay.reference = some r → r ≠ "" →
            (migratePayment pay).reference = some r)
        ∧ ((pay.reference = none ∨ pay.reference = some "") →
            ∀ cn, pay.checkNumber = some cn → cn ≠ "" →
              (migratePayment pay).reference = some cn)
        ∧ ((pay.reference = none ∨ pay.reference = some "") →
            (pay.checkNumber = none ∨ pay.checkNumber = some "") →
              (migratePayment pay).reference = some "") := by
  have hnot : ¬ schemaVersionOr1 d ≥ 2 := not_le.mpr h
  refine ⟨?_, fun p => rfl, ?_⟩
  · rw [migrateData, if_neg hnot]
  · intro pay
    refine ⟨?_, ?_, ?_, ?_⟩
    · intro hpm
      simp [migratePayment, jsOrStr, strTruthy, hpm]
    · intro r hr hne
      simp [migratePayment, jsOrStr, strTruthy, hr, hne]
    · rintro (href | href) cn hcn hne <;>
        simp [migratePayment, jsOrStr, strTruthy, href, hcn, hne]
    · rintro (href | href) (hcn | hcn) <;>
        simp [migratePayment, jsOrStr, strTruthy, href, hcn]

/-- C7 amended witness: the concrete v1 payment with no reference and check
number "77" migrates to reference "77" and payment method "check". -/
theorem migratePayment_reference_amended_witness :
    schemaVersionOr1 sampleDocC7b < 2
    ∧ samplePaymentC7.reference = none
    ∧ samplePaymentC7.checkNumber = some "77"
    ∧ (migratePayment samplePaymentC7).paymentMethod = some "check"
    ∧ (migratePayment samplePaymentC7).reference = some "77" :=
  ⟨by decide, rfl, rfl,
   ((migratePayment_reference_amended sampleDocC7b (by decide)).2.2 samplePaymentC7).1 rfl,
   ((migratePayment_reference_amended sampleDocC7b (by decide)).2.2 samplePaymentC7).2.2.1
     (Or.inl rfl) "77" rfl (by decide)⟩

/-- Helper: the JS-valued amount of a `parseFloat(x) || null` copy equals the
JS-valued amount of the original field (0 and null both denote zero). -/
theorem jsNum_numOrNull (o : Option ℚ) : jsNum (numOrNull o) = jsNum o := by
  cases o with
  | none => rfl
  | some x => by_cases hx : x = 0 <;> simp [numOrNull, jsNum, hx]

/-- Helper: when the request category ids are pairwise distinct, `find?` on a
member's category id returns exactly that member. -/
theorem find?_categoryId_unique (l : List PayAllocation) (a : PayAllocation)
    (k : Option Nat) (hnd : (l.map PayAllocation.categoryId).Nodup) (ha : a ∈ l)
    (hk : a.categoryId = k) :
    l.find? (fun x => x.categoryId = k) = some a := by
  induction l with
  | nil => exact absurd ha (List.not_mem_nil a)
  | cons b t ih =>
      rw [List.map_cons, List.nodup_cons] at hnd
      rcases List.mem_cons.mp ha with rfl | hat
      · rw [List.find?_cons_of_pos _ (by simp [hk])]
      · by_cases hb : b.categoryId = k
        · exfalso
          apply hnd.1
          rw [hb, ← hk]
          exact List.mem_map.mpr ⟨a, hat, rfl⟩
        · rw [List.find?_cons_of_neg _ (by simp [hb])]
          exact ih hnd.2 hat

/-- C4: in `addPayment`, requests whose amount fields are all zero or absent
are excluded from the embedded allocation list and produce no category-side
copy; every remaining request appears exactly once in the new payment's
embedded list and appends exactly one allocation (with `paymentId` set and
the payment's date) to the referenced category, the two copies carrying the
same effective amounts and the same date. Request category ids are pairwise
distinct, as the payment form builds one request per category. -/
theorem addPayment_two_copies
    (projects : List Project) (sel : Nat) (pid : Nat) (pd : PaymentData)
    (p : Project) (hp : p ∈ projects) (hsel : p.id = sel)
    (hnd : (pd.allocations.map PayAllocation.categoryId).Nodup) :
    (∃ q ∈ addPayment projects sel pid pd,
        q.payments = p.payments ++ [mkNewPayment pid pd]
        ∧ q.categories = p.categories.map (addPaymentToCategory pid pd))
    ∧ (mkNewPayment pid pd).date = pd.date
    ∧ (∀ a ∈ pd.allocations, hasPositiveAmount a = false →
        a ∉ (mkNewPayment pid pd).allocations
        ∧ ∀ cat ∈ p.categories, a.categoryId = some cat.id →
            addPaymentToCategory pid pd cat = cat)
    ∧ (∀ a ∈ pd.allocations, hasPositiveAmount a = true →
        (mkNewPayment pid pd).allocations.count a = 1
        ∧ ∀ cat ∈ p.categories, a.categoryId = some cat.id →
            (addPaymentToCategory pid pd cat).allocations
              = cat.allocations ++ [mkCatCopy pid pd.date a]
            ∧ (mkCatCopy pid pd.date a).paymentId = some pid
            ∧ (mkCatCopy pid pd.date a).date = some pd.date
            ∧ jsNum (mkCatCopy pid pd.date a).amount = jsNum a.amount
            ∧ jsNum (mkCatCopy pid pd.date a).laborAmount = jsNum a.laborAmount
            ∧ jsNum (mkCatCopy pid pd.date a).materialsAmount = jsNum a.materialsAmount) := by
  refine ⟨?_, rfl, ?_, ?_⟩
  · refine ⟨{ p with
        categories := p.categories.map (addPaymentToCategory pid pd)
        payments := p.payments ++ [mkNewPayment pid pd] }, ?_, rfl, rfl⟩
    rw [addPayment, List.mem_map]
    exact ⟨p, hp, by rw [if_pos hsel]⟩
  · intro a ha hneg
    constructor
    · intro hmem
      have hpos : hasPositiveAmount a = true := (List.mem_filter.mp hmem).2
      rw [hneg] at hpos
      exact Bool.false_ne_true hpos
    · intro cat hcat hk
      have hfind := find?_categoryId_unique pd.allocations a (some cat.id) hnd ha hk
      simp [addPaymentToCategory, hfind, hneg]
  · intro a ha hpos
    have hndl : pd.allocations.Nodup := List.Nodup.of_map _ hnd
    constructor
    · have hmem : a ∈ pd.allocations.filter (fun x => hasPositiveAmount x) :=
        List.mem_filter.mpr ⟨ha, hpos⟩
      have hndf : (pd.allocations.filter (fun x => hasPositiveAmount x)).Nodup :=
        hndl.filter _
      exact List.count_eq_one_of_mem hndf hmem
    · intro cat hcat hk
      have hfind := find?_categoryId_unique pd.allocations a (some cat.id) hnd ha hk
      refine ⟨?_, rfl, rfl, jsNum_numOrNull _, jsNum_numOrNull _, jsNum_numOrNull _⟩
      simp [addPaymentToCategory, hfind, hpos]

/-- C4 witness: recording the concrete payment against the two-category
project; the all-zero request for category 401 is dropped, the positive
request for category 400 is embedded once and appended once. -/
theorem addPayment_two_copies_witness :
    (sampleProjectC4 ∈ sampleProjectsC4
      ∧ sampleProjectC4.id = 7
      ∧ (samplePDC4.allocations.map PayAllocation.categoryId).Nodup
      ∧ PayAllocation.mk (some 400) (some 800) none none ∈ samplePDC4.allocations
      ∧ hasPositiveAmount (PayAllocation.mk (some 400) (some 800) none none) = true
      ∧ sampleCatC4a ∈ sampleProjectC4.categories)
    ∧ (∃ q ∈ addPayment sampleProjectsC4 7 900 samplePDC4,
        q.payments = sampleProjectC4.payments ++ [mkNewPayment 900 samplePDC4]
        ∧ q.categories = sampleProjectC4.categories.map (addPaymentToCategory 900 samplePDC4))
    ∧ (mkNewPayment 900 samplePDC4).allocations.count
        (PayAllocation.mk (some 400) (some 800) none none) = 1
    ∧ ((addPaymentToCategory 900 samplePDC4 sampleCatC4a).allocations
        = sampleCatC4a.allocations
          ++ [mkCatCopy 900 samplePDC4.date (PayAllocation.mk (some 400) (some 800) none none)]
      ∧ (mkCatCopy 900 samplePDC4.date
          (PayAllocation.mk (some 400) (some 800) none none)).paymentId = some 900
      ∧ (mkCatCopy 900 samplePDC4.date
          (PayAllocation.mk (some 400) (some 800) none none)).date = some samplePDC4.date
      ∧ jsNum (mkCatCopy 900 samplePDC4.date
          (PayAllocation.mk (some 400) (some 800) none none)).amount
          = jsNum (PayAllocation.mk (some 400) (some 800) none none).amount
      ∧ jsNum (mkCatCopy 900 samplePDC4.date
          (PayAllocation.mk (some 400) (some 800) none none)).laborAmount
          = jsNum (PayAllocation.mk (some 400) (some 800) none none).laborAmount
      ∧ jsNum (mkCatCopy 900 samplePDC4.date
          (PayAllocation.mk (some 400) (some 800) none none)).materialsAmount
          = jsNum (PayAllocation.mk (some 400) (some 800) none none).materialsAmount) := by
  refine ⟨⟨by simp [sampleProjectsC4], rfl, by decide, by simp [samplePDC4],
      by norm_num [hasPositiveAmount, posAmt], by simp [sampleProjectC4]⟩, ?_, ?_, ?_⟩
  · exact (addPayment_two_copies sampleProjectsC4 7 900 samplePDC4 sampleProjectC4
      (by simp [sampleProjectsC4]) rfl (by decide)).1
  · exact ((addPayment_two_copies sampleProjectsC4 7 900 samplePDC4 sampleProjectC4
      (by simp [sampleProjectsC4]) rfl (by decide)).2.2.2 _
      (by simp [samplePDC4]) (by norm_num [hasPositiveAmount, posAmt])).1
  · exact ((addPayment_two_copies sampleProjectsC4 7 900 samplePDC4 sampleProjectC4
      (by simp [sampleProjectsC4]) rfl (by decide)).2.2.2 _
      (by simp [samplePDC4]) (by norm_num [hasPositiveAmount, posAmt])).2
      sampleCatC4a (by simp [sampleProjectC4]) rfl
